import Mathlib

/-!
Verification of the todo CRUD service in `src/main.rs`.

The service exposes five HTTP handlers (`create_todo`, `get_todos`,
`get_todo`, `update_todo`, `delete_todo`) over a single Postgres table
`todos(id serial primary key, title text, completed boolean)`.  We embed
the handlers as pure functions over an explicit store state (the table
contents plus the serial sequence).  Connection/query failures of the
store are modelled by a fault parameter injected at the single database
call each handler performs; `RowNotFound` arises only from the data, as
in `sqlx`.
-/

namespace RustCrudApi

/-- `struct Todo { id: i32, title: String, completed: bool }` (main.rs lines 18-23). -/
structure Todo where
  id : Int
  title : String
  completed : Bool
deriving Repr, DecidableEq

/-- `struct CreateTodo { title: String }` (main.rs lines 27-30): the request body
for create and update carries only a title. -/
structure CreateTodo where
  title : String
deriving Repr, DecidableEq

/-- The `sqlx` errors the handlers distinguish: `sqlx::Error::RowNotFound`
(a `fetch_one` that matched no row) versus any other store failure. -/
inductive SqlError where
  | rowNotFound
  | other (msg : String)
deriving Repr, DecidableEq

/-- The `Display` text of the error, as interpolated by `format!("{}", e)`. -/
def SqlError.message : SqlError → String
  | .rowNotFound => "no rows returned by a query that expected to return at least one row"
  | .other msg => msg

/-- The persistent state: the `todos` table rows in insertion order, plus the
value the `serial` sequence will assign next. -/
structure Store where
  rows : List Todo
  nextId : Int
deriving Repr, DecidableEq

/-- The store of a freshly created database: empty table, serial sequence at 1. -/
def Store.initial : Store := { rows := [], nextId := 1 }

/-- Response bodies produced by the handlers. -/
inductive Body where
  | jsonTodo (t : Todo)
  | jsonTodos (ts : List Todo)
  | text (s : String)
  | empty
deriving Repr, DecidableEq

/-- An HTTP response: status code and body. -/
structure Response where
  status : Nat
  body : Body
deriving Repr, DecidableEq

/-- `INSERT INTO todos (title) VALUES ($1) RETURNING id, title, completed`:
the store assigns the next serial id and `completed` defaults to false. -/
def Store.insertReturning (st : Store) (title : String) : Store × Todo :=
  let todo : Todo := { id := st.nextId, title := title, completed := false }
  ({ rows := st.rows ++ [todo], nextId := st.nextId + 1 }, todo)

/-- `SELECT id, title, completed FROM todos` with `fetch_all`. -/
def Store.selectAll (st : Store) : List Todo :=
  st.rows

/-- `SELECT id, title, completed FROM todos WHERE id = $1` with `fetch_one`:
the first matching row, or `RowNotFound`. -/
def Store.fetchOne (st : Store) (id : Int) : Except SqlError Todo :=
  match st.rows.find? (fun t => t.id == id) with
  | some t => .ok t
  | none => .error .rowNotFound

/-- The effect of `SET title = $1, completed = false` on one row. -/
def Todo.updated (t : Todo) (title : String) : Todo :=
  { t with title := title, completed := false }

/-- `UPDATE todos SET title = $1, completed = false WHERE id = $2 RETURNING id,
title, completed` with `fetch_one`: every matching row is updated; the first
updated row is returned, or `RowNotFound` if none matched. -/
def Store.updateReturning (st : Store) (title : String) (id : Int) :
    Except SqlError (Store × Todo) :=
  match st.rows.find? (fun t => t.id == id) with
  | none => .error .rowNotFound
  | some t =>
    .ok ({ st with rows := st.rows.map (fun r => if r.id == id then r.updated title else r) },
         t.updated title)

/-- `DELETE FROM todos WHERE id = $1` with `execute`: removes every matching
row and reports `rows_affected`. -/
def Store.deleteById (st : Store) (id : Int) : Store × Nat :=
  ({ st with rows := st.rows.filter (fun t => !(t.id == id)) },
   (st.rows.filter (fun t => t.id == id)).length)

/-- Running a query through the pool: a connection/query fault, when injected,
replaces the result with an opaque store error and leaves the table untouched. -/
def dbRun {α : Type} (fault : Option String) (query : Except SqlError α) : Except SqlError α :=
  match fault with
  | some e => .error (.other e)
  | none => query

/-- Handler `create_todo` (main.rs lines 83-102). -/
def create_todo (state : Store) (payload : CreateTodo) (fault : Option String) :
    Response × Store :=
  let result := dbRun fault (.ok (state.insertReturning payload.title))
  match result with
  | .ok (st, todo) => ({ status := 201, body := .jsonTodo todo }, st)
  | .error e =>
      ({ status := 500, body := .text ("Failed to create todo: " ++ e.message) }, state)

/-- Handler `get_todos` (main.rs lines 105-118); it performs no write, so it
returns only the response. -/
def get_todos (state : Store) (fault : Option String) : Response :=
  let result := dbRun fault (.ok state.selectAll)
  match result with
  | .ok todos => { status := 200, body := .jsonTodos todos }
  | .error e => { status := 500, body := .text ("Failed to fetch todos: " ++ e.message) }

/-- Handler `get_todo` (main.rs lines 121-141). -/
def get_todo (state : Store) (id : Int) (fault : Option String) : Response :=
  let result := dbRun fault (state.fetchOne id)
  match result with
  | .ok todo => { status := 200, body := .jsonTodo todo }
  | .error .rowNotFound =>
      { status := 404, body := .text ("Todo with id " ++ toString id ++ " not found") }
  | .error e => { status := 500, body := .text ("Failed to fetch todo: " ++ e.message) }

/-- Handler `update_todo` (main.rs lines 144-168). -/
def update_todo (state : Store) (id : Int) (payload : CreateTodo) (fault : Option String) :
    Response × Store :=
  let result := dbRun fault (state.updateReturning payload.title id)
  match result with
  | .ok (st, todo) => ({ status := 200, body := .jsonTodo todo }, st)
  | .error .rowNotFound =>
      ({ status := 404, body := .text ("Todo with id " ++ toString id ++ " not found") }, state)
  | .error e =>
      ({ status := 500, body := .text ("Failed to update todo: " ++ e.message) }, state)

/-- Handler `delete_todo` (main.rs lines 171-189). -/
def delete_todo (state : Store) (id : Int) (fault : Option String) : Response × Store :=
  let result := dbRun fault (.ok (state.deleteById id))
  match result with
  | .ok (st, affected) =>
    if 0 < affected then ({ status := 204, body := .empty }, st)
    else ({ status := 404, body := .text ("Todo with id " ++ toString id ++ " not found") }, st)
  | .error e =>
      ({ status := 500, body := .text ("Failed to delete todo: " ++ e.message) }, state)

/-- Rust `str::parse::<u16>`: an optional leading `+`, then one or more ASCII
digits, and the value must fit in a `u16`; anything else is an error
(modelled as `none`). -/
def parseU16 (s : String) : Option Nat :=
  let chars :=
    match s.data with
    | '+' :: rest => rest
    | cs => cs
  if chars.isEmpty then none
  else if chars.all Char.isDigit then
    let n := chars.foldl (fun acc c => acc * 10 + (c.toNat - 48)) 0
    if n ≤ 65535 then some n else none
  else none

/-- Outcome of `main` before serving: either the server is listening on a
port, or a `.expect(...)` panicked with the given message. -/
inductive Startup where
  | listening (port : Nat)
  | panicked (msg : String)
deriving Repr, DecidableEq

/-- The startup sequence of `main` (main.rs lines 40-79): `DATABASE_URL` is
required, the pool must connect, and `PORT` defaults to `"3000"` and must
parse as a `u16`.  `databaseUrl?` and `port?` are the environment variables,
`connectOk` whether the database is reachable. -/
def main_startup (databaseUrl? : Option String) (connectOk : Bool) (port? : Option String) :
    Startup :=
  match databaseUrl? with
  | none => .panicked "DATABASE_URL must be set"
  | some _ =>
    if connectOk then
      match parseU16 (port?.getD "3000") with
      | some p => .listening p
      | none => .panicked "PORT must be a valid number"
    else .panicked "Failed to create pool."

/-- A JSON value, for modelling what `Json<CreateTodo>` extraction does with
request bodies. -/
inductive Json where
  | str (s : String)
  | num (n : Int)
  | bool (b : Bool)
  | null
  | arr (xs : List Json)
  | obj (fields : List (String × Json))

/-- The serde-derived deserializer for `CreateTodo` walking the fields of a
JSON object in order: a `"title"` key must hold a string and may appear only
once; every other key is skipped.  `acc` is the title seen so far; at the end
the title must have been set. -/
def deserFields : List (String × Json) → Option String → Option CreateTodo
  | [], none => none
  | [], some t => some { title := t }
  | (k, v) :: rest, acc =>
    if k = "title" then
      match acc, v with
      | some _, _ => none
      | none, .str s => deserFields rest (some s)
      | none, _ => none
    else deserFields rest acc

/-- `serde_json` deserialization of a `CreateTodo`: the body must be a JSON
object, and its fields are read by `deserFields`. -/
def CreateTodo.deserialize : Json → Option CreateTodo
  | .obj fields => deserFields fields none
  | _ => none

/-- The well-formedness invariant the store maintains: every assigned id is
below the serial sequence value, and ids are pairwise distinct. -/
def Store.WF (st : Store) : Prop :=
  (∀ t ∈ st.rows, t.id < st.nextId) ∧ st.rows.Pairwise (fun a b => a.id ≠ b.id)

/-- The states reachable from a fresh database through the handlers (the
read-only handlers `get_todos` and `get_todo` do not touch the state). -/
inductive Reachable : Store → Prop where
  | init : Reachable Store.initial
  | create (st : Store) (payload : CreateTodo) (fault : Option String) :
      Reachable st → Reachable (create_todo st payload fault).2
  | update (st : Store) (id : Int) (payload : CreateTodo) (fault : Option String) :
      Reachable st → Reachable (update_todo st id payload fault).2
  | delete (st : Store) (id : Int) (fault : Option String) :
      Reachable st → Reachable (delete_todo st id fault).2

/-! ## Helper lemmas -/

/-- A member with the requested id yields a `find?` hit whose id is the
requested one. -/
theorem find_by_id_of_mem {rows : List Todo} {id : Int}
    (h : ∃ t ∈ rows, t.id = id) :
    ∃ u, rows.find? (fun r => r.id == id) = some u ∧ u.id = id := by
  obtain ⟨t, ht, hid⟩ := h
  have hs : (rows.find? (fun r => r.id == id)).isSome :=
    List.find?_isSome.mpr ⟨t, ht, by simp [hid]⟩
  obtain ⟨u, hu⟩ := Option.isSome_iff_exists.mp hs
  exact ⟨u, hu, by simpa using List.find?_some hu⟩

/-- When no row has the requested id, `find?` misses. -/
theorem find_by_id_eq_none {rows : List Todo} {id : Int}
    (h : ∀ t ∈ rows, t.id ≠ id) :
    rows.find? (fun r => r.id == id) = none := by
  exact List.find?_eq_none.mpr (fun t ht => by simpa using h t ht)

/-- The per-row effect of the UPDATE statement never changes the row's id. -/
theorem update_row_id (id : Int) (title : String) (r : Todo) :
    (if r.id == id then r.updated title else r).id = r.id := by
  by_cases h : r.id == id <;> simp [h, Todo.updated]

/-! ## Claims -/

/-- Claim C2: for every create request with body `{title}`, `create_todo`
inserts exactly one new row (appended, with the store-generated serial id and
`completed = false`) and returns 201 with that row; on store failure it
returns 500 with an error message and the table is unchanged. -/
theorem create_todo_spec (st : Store) (payload : CreateTodo) :
    (create_todo st payload none =
      ({ status := 201,
         body := .jsonTodo { id := st.nextId, title := payload.title, completed := false } },
       { rows := st.rows ++ [{ id := st.nextId, title := payload.title, completed := false }],
         nextId := st.nextId + 1 })) ∧
    ∀ e, create_todo st payload (some e) =
      ({ status := 500, body := .text ("Failed to create todo: " ++ e) }, st) :=
  ⟨rfl, fun _ => rfl⟩

/-- Claim C6: `get_todos` takes no input and, absent a store failure, returns
200 with the JSON array of every row currently in the table; on store failure
it returns 500. -/
theorem get_todos_spec (st : Store) :
    get_todos st none = { status := 200, body := .jsonTodos st.rows } ∧
    ∀ e, get_todos st (some e) =
      { status := 500, body := .text ("Failed to fetch todos: " ++ e) } :=
  ⟨rfl, fun _ => rfl⟩

/-- Claim C1: for every existing todo id and request body `{title}`,
`update_todo` replaces the row's title, forces `completed` to false whatever
it was, and returns the updated row with status 200; the stored row under
that id is the updated one. -/
theorem update_todo_existing (st : Store) (id : Int) (payload : CreateTodo)
    (h : ∃ t ∈ st.rows, t.id = id) :
    (update_todo st id payload none).1 =
      { status := 200,
        body := .jsonTodo { id := id, title := payload.title, completed := false } } ∧
    (update_todo st id payload none).2.rows.find? (fun r => r.id == id) =
      some { id := id, title := payload.title, completed := false } := by
  obtain ⟨u, hu, huid⟩ := find_by_id_of_mem h
  constructor
  · simp [update_todo, dbRun, Store.updateReturning, hu, Todo.updated, huid]
  · simp only [update_todo, dbRun, Store.updateReturning, hu]
    rw [List.find?_map]
    have hpf : ((fun r : Todo => r.id == id) ∘
        (fun r : Todo => if r.id == id then r.updated payload.title else r)) =
        (fun r : Todo => r.id == id) := by
      funext r
      simp only [Function.comp]
      rw [update_row_id]
    rw [hpf, hu]
    simp [Todo.updated, huid]

/-- Witness for C1 on a concrete store: updating id 1 of a completed todo. -/
theorem update_todo_existing_witness :
    (update_todo ⟨[⟨1, "a", true⟩], 2⟩ 1 ⟨"b"⟩ none).1 =
      { status := 200, body := .jsonTodo { id := 1, title := "b", completed := false } } ∧
    (update_todo ⟨[⟨1, "a", true⟩], 2⟩ 1 ⟨"b"⟩ none).2.rows.find? (fun r => r.id == 1) =
      some { id := 1, title := "b", completed := false } :=
  update_todo_existing ⟨[⟨1, "a", true⟩], 2⟩ 1 ⟨"b"⟩ ⟨⟨1, "a", true⟩, by simp, rfl⟩

/-- Claim C4: `get_todo` returns 200 with the matching row when one exists,
404 with a message naming the requested id when none matches, and 500 with
the underlying store error text interpolated into the body on any other
store failure. -/
theorem get_todo_spec (st : Store) (id : Int) :
    (∀ t, st.rows.find? (fun r => r.id == id) = some t →
       get_todo st id none = { status := 200, body := .jsonTodo t }) ∧
    ((∀ t ∈ st.rows, t.id ≠ id) →
       get_todo st id none =
         { status := 404, body := .text ("Todo with id " ++ toString id ++ " not found") }) ∧
    (∀ e, get_todo st id (some e) =
       { status := 500, body := .text ("Failed to fetch todo: " ++ e) }) := by
  refine ⟨fun t ht => ?_, fun hnone => ?_, fun e => rfl⟩
  · simp [get_todo, dbRun, Store.fetchOne, ht]
  · simp [get_todo, dbRun, Store.fetchOne, find_by_id_eq_none hnone]

/-- Witness for C4: hit on id 1, miss on id 99999, fault case. -/
theorem get_todo_spec_witness :
    get_todo ⟨[⟨1, "a", true⟩], 2⟩ 1 none =
      { status := 200, body := .jsonTodo ⟨1, "a", true⟩ } ∧
    get_todo ⟨[⟨1, "a", true⟩], 2⟩ 99999 none =
      { status := 404, body := .text "Todo with id 99999 not found" } ∧
    get_todo ⟨[⟨1, "a", true⟩], 2⟩ 1 (some "boom") =
      { status := 500, body := .text "Failed to fetch todo: boom" } :=
  ⟨(get_todo_spec ⟨[⟨1, "a", true⟩], 2⟩ 1).1 ⟨1, "a", true⟩ (by decide),
   (get_todo_spec ⟨[⟨1, "a", true⟩], 2⟩ 99999).2.1 (by decide),
   (get_todo_spec ⟨[⟨1, "a", true⟩], 2⟩ 1).2.2 "boom"⟩

/-- Claim C3: `delete_todo` returns 204 with an empty body when a row with the
requested id existed (and 404 with a message when none matched, leaving the
table unchanged); hence deleting the same id twice with nothing in between
yields 204 then 404. -/
theorem delete_todo_spec (st : Store) (id : Int) :
    ((∃ t ∈ st.rows, t.id = id) →
       (delete_todo st id none).1 = { status := 204, body := .empty } ∧
       (delete_todo (delete_todo st id none).2 id none).1 =
         { status := 404, body := .text ("Todo with id " ++ toString id ++ " not found") }) ∧
    ((∀ t ∈ st.rows, t.id ≠ id) →
       delete_todo st id none =
         ({ status := 404, body := .text ("Todo with id " ++ toString id ++ " not found") },
          st)) := by
  constructor
  · rintro ⟨t, ht, hid⟩
    have hpos : 0 < (st.rows.filter (fun r => r.id == id)).length := by
      refine List.length_pos.mpr (fun hemp => ?_)
      have : t ∈ st.rows.filter (fun r => r.id == id) :=
        List.mem_filter.mpr ⟨ht, by simp [hid]⟩
      simp [hemp] at this
    have hsecond : ((st.rows.filter (fun r => !(r.id == id))).filter
        (fun r => r.id == id)).length = 0 := by
      rw [List.length_eq_zero, List.filter_filter]
      refine List.filter_eq_nil_iff.mpr (fun r _ => ?_)
      by_cases h : r.id = id <;> simp [h]
    constructor
    · simp [delete_todo, dbRun, Store.deleteById, hpos]
    · simp [delete_todo, dbRun, Store.deleteById, hpos, hsecond]
  · intro hnone
    have hmatch : st.rows.filter (fun r => r.id == id) = [] :=
      List.filter_eq_nil_iff.mpr (fun r hr => by simpa using hnone r hr)
    have hkeep : st.rows.filter (fun r => !(r.id == id)) = st.rows :=
      List.filter_eq_self.mpr (fun r hr => by simpa using hnone r hr)
    cases st with
    | mk rows nextId =>
      simp [delete_todo, dbRun, Store.deleteById, hmatch, hkeep]

/-- Witness for C3: delete id 1 twice from a one-row table, and delete a
missing id. -/
theorem delete_todo_spec_witness :
    ((delete_todo ⟨[⟨1, "a", false⟩], 2⟩ 1 none).1 = { status := 204, body := .empty } ∧
     (delete_todo (delete_todo ⟨[⟨1, "a", false⟩], 2⟩ 1 none).2 1 none).1 =
       { status := 404, body := .text "Todo with id 1 not found" }) ∧
    delete_todo ⟨[⟨1, "a", false⟩], 2⟩ 7 none =
      ({ status := 404, body := .text "Todo with id 7 not found" }, ⟨[⟨1, "a", false⟩], 2⟩) :=
  ⟨(delete_todo_spec ⟨[⟨1, "a", false⟩], 2⟩ 1).1 ⟨⟨1, "a", false⟩, by simp, rfl⟩,
   (delete_todo_spec ⟨[⟨1, "a", false⟩], 2⟩ 7).2 (by decide)⟩

/-- The state after a successful update that found a row. -/
theorem update_todo_state_found {st : Store} {id : Int} {u : Todo} (payload : CreateTodo)
    (hf : st.rows.find? (fun t => t.id == id) = some u) :
    (update_todo st id payload none).2 =
      { st with rows :=
          st.rows.map (fun r => if r.id == id then r.updated payload.title else r) } := by
  simp [update_todo, dbRun, Store.updateReturning, hf]

/-- The state after an update that matched no row is the old state. -/
theorem update_todo_state_missing {st : Store} {id : Int} (payload : CreateTodo)
    (hf : st.rows.find? (fun t => t.id == id) = none) :
    (update_todo st id payload none).2 = st := by
  simp [update_todo, dbRun, Store.updateReturning, hf]

/-- The state after a delete keeps exactly the rows with a different id. -/
theorem delete_todo_state (st : Store) (id : Int) :
    (delete_todo st id none).2 =
      { st with rows := st.rows.filter (fun t => !(t.id == id)) } := by
  by_cases hp : 0 < (st.rows.filter (fun t => t.id == id)).length <;>
    simp [delete_todo, dbRun, Store.deleteById, hp]

/-- Claim C5: a successful create immediately followed by get-by-id on the
returned id (no interleaving operations) succeeds with exactly the created
todo, on any well-formed store. -/
theorem create_get_roundtrip (st : Store) (payload : CreateTodo) (h : Store.WF st) :
    ∀ t, (create_todo st payload none).1.body = .jsonTodo t →
      (create_todo st payload none).1.status = 201 ∧
      get_todo (create_todo st payload none).2 t.id none =
        { status := 200, body := .jsonTodo t } := by
  intro t ht
  simp only [create_todo, dbRun, Store.insertReturning, Body.jsonTodo.injEq] at ht
  subst ht
  refine ⟨rfl, ?_⟩
  have hmiss : st.rows.find? (fun r => r.id == st.nextId) = none :=
    find_by_id_eq_none (fun r hr => by have := h.1 r hr; omega)
  simp [create_todo, dbRun, Store.insertReturning, get_todo, Store.fetchOne,
    List.find?_append, hmiss]

/-- Witness for C5: create "Buy milk" on a one-row store, then fetch id 2. -/
theorem create_get_roundtrip_witness :
    (create_todo ⟨[⟨1, "x", true⟩], 2⟩ ⟨"Buy milk"⟩ none).1.status = 201 ∧
    get_todo (create_todo ⟨[⟨1, "x", true⟩], 2⟩ ⟨"Buy milk"⟩ none).2 2 none =
      { status := 200, body := .jsonTodo ⟨2, "Buy milk", false⟩ } := by
  have h := create_get_roundtrip ⟨[⟨1, "x", true⟩], 2⟩ ⟨"Buy milk"⟩
    (by refine ⟨?_, ?_⟩ <;> decide) ⟨2, "Buy milk", false⟩ (by decide)
  exact ⟨h.1, h.2⟩

/-- Creation preserves the well-formedness invariant. -/
theorem wf_create (st : Store) (payload : CreateTodo) (fault : Option String)
    (h : Store.WF st) : Store.WF (create_todo st payload fault).2 := by
  cases fault with
  | some e => exact h
  | none =>
    obtain ⟨hbound, hpair⟩ := h
    constructor
    · intro t ht
      simp only [create_todo, dbRun, Store.insertReturning, List.mem_append,
        List.mem_singleton] at ht
      show t.id < st.nextId + 1
      rcases ht with ht | ht
      · have := hbound t ht; omega
      · subst ht; show st.nextId < st.nextId + 1; omega
    · show (st.rows ++ [_]).Pairwise _
      rw [List.pairwise_append]
      refine ⟨hpair, List.pairwise_singleton _ _, ?_⟩
      intro a ha b hb
      simp only [List.mem_singleton] at hb
      subst hb
      have := hbound a ha
      show a.id ≠ st.nextId
      omega

/-- Update preserves the well-formedness invariant. -/
theorem wf_update (st : Store) (id : Int) (payload : CreateTodo) (fault : Option String)
    (h : Store.WF st) : Store.WF (update_todo st id payload fault).2 := by
  cases fault with
  | some e => exact h
  | none =>
    cases hf : st.rows.find? (fun t => t.id == id) with
    | none => rw [update_todo_state_missing payload hf]; exact h
    | some u =>
      obtain ⟨hbound, hpair⟩ := h
      rw [update_todo_state_found payload hf]
      constructor
      · intro t ht
        simp only [List.mem_map] at ht
        obtain ⟨r, hr, hrt⟩ := ht
        show t.id < st.nextId
        rw [← hrt, update_row_id]
        exact hbound r hr
      · show (st.rows.map _).Pairwise _
        rw [List.pairwise_map]
        exact hpair.imp (fun hab => by rw [update_row_id, update_row_id]; exact hab)

/-- Delete preserves the well-formedness invariant. -/
theorem wf_delete (st : Store) (id : Int) (fault : Option String)
    (h : Store.WF st) : Store.WF (delete_todo st id fault).2 := by
  cases fault with
  | some e => exact h
  | none =>
    obtain ⟨hbound, hpair⟩ := h
    rw [delete_todo_state]
    exact ⟨fun t ht => hbound t (List.mem_of_mem_filter ht),
      List.Pairwise.sublist (List.filter_sublist _) hpair⟩

/-- Every reachable store is well-formed. -/
theorem reachable_wf (st : Store) (h : Reachable st) : Store.WF st := by
  induction h with
  | init =>
    constructor
    · intro t ht; simp [Store.initial] at ht
    · show ([] : List Todo).Pairwise _; exact List.Pairwise.nil
  | create st payload fault _ ih => exact wf_create st payload fault ih
  | update st id payload fault _ ih => exact wf_update st id payload fault ih
  | delete st id fault _ ih => exact wf_delete st id fault ih

/-- Update never changes any row's id, positionwise. -/
theorem update_preserves_ids (st : Store) (id : Int) (payload : CreateTodo)
    (fault : Option String) :
    (update_todo st id payload fault).2.rows.map Todo.id = st.rows.map Todo.id := by
  cases fault with
  | some e => rfl
  | none =>
    cases hf : st.rows.find? (fun t => t.id == id) with
    | none => rw [update_todo_state_missing payload hf]
    | some u =>
      rw [update_todo_state_found payload hf]
      show (st.rows.map _).map Todo.id = _
      rw [List.map_map]
      exact List.map_congr_left (fun r _ => by
        simp only [Function.comp]; rw [update_row_id])

/-- Claim C7: in every reachable state the ids in the table are pairwise
distinct, update never changes any row's id, and delete only removes rows
(never alters one), so an id is immutable once assigned. -/
theorem id_invariant :
    (∀ st, Reachable st → st.rows.Pairwise (fun a b => a.id ≠ b.id)) ∧
    (∀ st id payload fault,
       (update_todo st id payload fault).2.rows.map Todo.id = st.rows.map Todo.id) ∧
    (∀ st id fault, ((delete_todo st id fault).2).rows.Sublist st.rows) := by
  refine ⟨fun st h => (reachable_wf st h).2, update_preserves_ids, ?_⟩
  intro st id fault
  cases fault with
  | some e => exact List.Sublist.refl _
  | none =>
    rw [delete_todo_state]
    exact List.filter_sublist _

/-- Witness for C7: distinctness at the initial store, and the id list of a
concrete update. -/
theorem id_invariant_witness :
    Store.initial.rows.Pairwise (fun a b => a.id ≠ b.id) ∧
    (update_todo ⟨[⟨1, "a", true⟩], 2⟩ 1 ⟨"b"⟩ none).2.rows.map Todo.id =
      (⟨[⟨1, "a", true⟩], 2⟩ : Store).rows.map Todo.id :=
  ⟨id_invariant.1 Store.initial Reachable.init,
   id_invariant.2.1 ⟨[⟨1, "a", true⟩], 2⟩ 1 ⟨"b"⟩ none⟩

/-- Claim C8: a missing `PORT` defaults to listening on 3000; a missing
`DATABASE_URL` aborts startup, and a `PORT` value that does not parse as a
valid port number aborts startup rather than starting the server. -/
theorem startup_spec (url : String) :
    main_startup (some url) true none = .listening 3000 ∧
    (∀ connectOk port?, main_startup none connectOk port? =
       .panicked "DATABASE_URL must be set") ∧
    (∀ s, parseU16 s = none →
       main_startup (some url) true (some s) = .panicked "PORT must be a valid number") := by
  refine ⟨rfl, fun c p => rfl, fun s hs => ?_⟩
  simp [main_startup, hs]

/-- Witness for C8: concrete environments for the default, the missing
database URL, and a non-numeric port. -/
theorem startup_spec_witness :
    main_startup (some "postgres://localhost/db") true none = .listening 3000 ∧
    main_startup none true (some "8080") = .panicked "DATABASE_URL must be set" ∧
    main_startup (some "postgres://localhost/db") true (some "not-a-port") =
      .panicked "PORT must be a valid number" := by
  have h := startup_spec "postgres://localhost/db"
  exact ⟨h.1, h.2.1 true (some "8080"), h.2.2 "not-a-port" (by decide)⟩

/-- Deserialization only looks at the `"title"` fields of the object. -/
theorem deserFields_filter (fields : List (String × Json)) (acc : Option String) :
    deserFields fields acc =
      deserFields (fields.filter (fun kv => kv.1 == "title")) acc := by
  induction fields generalizing acc with
  | nil => rfl
  | cons kv rest ih =>
    obtain ⟨k, v⟩ := kv
    by_cases hk : k = "title"
    · subst hk
      rw [show (("title", v) :: rest).filter (fun kv => kv.1 == "title") =
            ("title", v) :: rest.filter (fun kv => kv.1 == "title") from by simp]
      cases acc with
      | some t => rfl
      | none =>
        cases v with
        | str s =>
          show deserFields rest (some s) = deserFields (rest.filter _) (some s)
          exact ih (some s)
        | num n => rfl
        | bool b => rfl
        | null => rfl
        | arr xs => rfl
        | obj fs => rfl
    · rw [show ((k, v) :: rest).filter (fun kv => kv.1 == "title") =
            rest.filter (fun kv => kv.1 == "title") from by simp [hk]]
      rw [show deserFields ((k, v) :: rest) acc = deserFields rest acc from by
            simp [deserFields, hk]]
      exact ih acc

/-- Claim C9: the request body type carries only `title`, so deserialization
ignores every other field (such as a client-supplied `completed` or `id`),
a created row always has the store-generated id and `completed = false`, and
an updated row's `completed` is always false. -/
theorem only_title_field_matters :
    (∀ fields, CreateTodo.deserialize (.obj fields) =
       CreateTodo.deserialize (.obj (fields.filter (fun kv => kv.1 == "title")))) ∧
    (∀ j payload, CreateTodo.deserialize j = some payload →
       ∀ st, (create_todo st payload none).1.body =
         .jsonTodo { id := st.nextId, title := payload.title, completed := false }) ∧
    (∀ st id payload fault t,
       (update_todo st id payload fault).1.body = .jsonTodo t → t.completed = false) := by
  refine ⟨fun fields => deserFields_filter fields none, fun j payload _ st => rfl, ?_⟩
  intro st id payload fault t ht
  cases fault with
  | some e => simp [update_todo, dbRun] at ht
  | none =>
    cases hf : st.rows.find? (fun r => r.id == id) with
    | none => simp [update_todo, dbRun, Store.updateReturning, hf] at ht
    | some u =>
      simp only [update_todo, dbRun, Store.updateReturning, hf,
        Body.jsonTodo.injEq] at ht
      rw [← ht]
      rfl

/-- Witness for C9: an object with extra `completed` and `id` fields, a
concrete create, and a concrete update. -/
theorem only_title_field_matters_witness :
    CreateTodo.deserialize
        (.obj [("title", .str "x"), ("completed", .bool true), ("id", .num 7)]) =
      CreateTodo.deserialize
        (.obj ([("title", .str "x"), ("completed", .bool true),
                ("id", .num 7)].filter (fun kv => kv.1 == "title"))) ∧
    (create_todo ⟨[], 1⟩ ⟨"x"⟩ none).1.body =
      .jsonTodo { id := 1, title := "x", completed := false } ∧
    ({ id := 1, title := "b", completed := false } : Todo).completed = false := by
  have h := only_title_field_matters
  refine ⟨h.1 [("title", .str "x"), ("completed", .bool true), ("id", .num 7)], ?_, ?_⟩
  · exact h.2.1 (.obj [("title", .str "x")]) ⟨"x"⟩ rfl ⟨[], 1⟩
  · exact h.2.2 ⟨[⟨1, "a", true⟩], 2⟩ 1 ⟨"b"⟩ none _ (by decide)

/-- Claim C10: update and delete touch at most the rows with the requested
id — update keeps the length and every row with a different id in place,
delete keeps every row with a different id and never alters one — and in the
404 case (no row matches) the table is entirely unchanged. -/
theorem frame_spec (st : Store) (id : Int) (payload : CreateTodo) :
    ((update_todo st id payload none).2.rows.length = st.rows.length ∧
     ∀ (i : Nat) (t : Todo), st.rows[i]? = some t → t.id ≠ id →
       (update_todo st id payload none).2.rows[i]? = some t) ∧
    (∀ t ∈ st.rows, t.id ≠ id → t ∈ (delete_todo st id none).2.rows) ∧
    (delete_todo st id none).2.rows.Sublist st.rows ∧
    ((∀ t ∈ st.rows, t.id ≠ id) →
       (update_todo st id payload none).2 = st ∧ (delete_todo st id none).2 = st) := by
  refine ⟨⟨?_, ?_⟩, ?_, ?_, ?_⟩
  · cases hf : st.rows.find? (fun r => r.id == id) with
    | none => rw [update_todo_state_missing payload hf]
    | some u => rw [update_todo_state_found payload hf]; exact List.length_map ..
  · intro i t hti htid
    cases hf : st.rows.find? (fun r => r.id == id) with
    | none => rw [update_todo_state_missing payload hf]; exact hti
    | some u =>
      rw [update_todo_state_found payload hf]
      show (st.rows.map _)[i]? = some t
      rw [List.getElem?_map, hti]
      simp [htid]
  · intro t ht htid
    rw [delete_todo_state]
    exact List.mem_filter.mpr ⟨ht, by simp [htid]⟩
  · rw [delete_todo_state]
    exact List.filter_sublist _
  · intro hnone
    refine ⟨update_todo_state_missing payload (find_by_id_eq_none hnone), ?_⟩
    rw [delete_todo_state]
    cases st with
    | mk rows nextId =>
      simp only [Store.mk.injEq, and_true]
      exact List.filter_eq_self.mpr (fun r hr => by simpa using hnone r hr)

/-- Witness for C10: a two-row store where id 1 is updated or deleted and the
row with id 2 survives unchanged, plus a 404 update leaving the store as is. -/
theorem frame_spec_witness :
    (update_todo ⟨[⟨1, "a", false⟩, ⟨2, "b", true⟩], 3⟩ 1 ⟨"z"⟩ none).2.rows[1]? =
      some ⟨2, "b", true⟩ ∧
    (⟨2, "b", true⟩ : Todo) ∈
      (delete_todo ⟨[⟨1, "a", false⟩, ⟨2, "b", true⟩], 3⟩ 1 none).2.rows ∧
    (update_todo ⟨[⟨2, "b", true⟩], 3⟩ 1 ⟨"z"⟩ none).2 = ⟨[⟨2, "b", true⟩], 3⟩ := by
  have h := frame_spec ⟨[⟨1, "a", false⟩, ⟨2, "b", true⟩], 3⟩ 1 ⟨"z"⟩
  have h2 := frame_spec ⟨[⟨2, "b", true⟩], 3⟩ 1 ⟨"z"⟩
  exact ⟨h.1.2 1 ⟨2, "b", true⟩ (by decide) (by decide),
    h.2.1 ⟨2, "b", true⟩ (by decide) (by decide),
    (h2.2.2.2 (by decide)).1⟩

end RustCrudApi
